import Mathlib

/-!
Shallow embedding of `src/agent/buda_agent.js` (the BudaAgent base template):
the constructor, `start`, `exit`, `transform`, `connectStorage` and `log`,
together with the per-connection stream pipeline that the `net.createServer`
callback wires for every accepted connection.

JavaScript optional/nullable string values are modelled as `Option String`
(`none` is `undefined`/`null`), and JS truthiness of such a value is the
predicate `truthy` (`undefined`, `null` and `""` are falsy).  External calls
that may raise (`close`, `mongoose.disconnect`, the overridable `cleanup`)
are parametrised by a boolean saying whether the call raises; a raise aborts
the remaining statements of the enclosing JS function, exactly as an uncaught
exception would.
-/

namespace Buda

/-- A JS string field that may be `undefined`/`null`. -/
abbrev JStr := Option String

/-- JS truthiness of an optional string: `undefined`, `null` and `""` are falsy. -/
def truthy : JStr → Bool
  | none => false
  | some s => !(s == "")

/-- `conf.hotspot` of the configuration object. -/
structure Hotspot where
  location : String
deriving Repr, DecidableEq

/-- `conf.storage` of the configuration object.  A JS object can carry any
keys; the two collection-related keys that appear in the spec (`collectionName`)
and in the source (`collection`) are both modelled so that reads of either can
be expressed. -/
structure StorageConf where
  host : JStr
  db : String
  collection : JStr
  collectionName : JStr
deriving Repr, DecidableEq

/-- The raw configuration object handed to the `BudaAgent` constructor. -/
structure Conf where
  hotspot : Hotspot
  compression : JStr
  storage : StorageConf
deriving Repr, DecidableEq

/-- Normalisation done by the constructor: a missing `compression` key becomes
`'none'`; the `switch` maps `'gzip'` to `'gzip'` and everything else
(`'none'` or unknown) to `'none'`. -/
def normalizeCompression : JStr → String
  | none => "none"
  | some c => if c = "gzip" then "gzip" else "none"

/-- The decompressor allocated by the constructor's `switch`: one
`zlib.createGunzip()` instance (id 0) when compression is `'gzip'`, otherwise
`null`.  Stream instances are identified by a numeric id. -/
def mkDecompressor : JStr → Option Nat
  | none => none
  | some c => if c = "gzip" then some 0 else none

/-- The state of a `BudaAgent` object.  Field names follow the source
(including the source's spelling `decrompressor`). -/
structure BudaAgent where
  parser : Option Nat
  incoming : Option Nat
  endpoint : String
  compression : String
  decrompressor : Option Nat
  storageHost : JStr
  storageDb : String
  storageCollection : JStr
  storageStrict : Bool
  modelName : String
deriving Repr, DecidableEq

/-- The `BudaAgent(conf)` constructor: `parser` and `incoming` start `null`,
the endpoint is `conf.hotspot.location`, compression is normalised, the
gunzip instance is allocated once per agent, and the mongoose schema is set
to `strict: false` with collection `conf.storage.collection`, registered
under the model name `'Doc'`. -/
def mkAgent (conf : Conf) : BudaAgent :=
  { parser := none
    incoming := none
    endpoint := conf.hotspot.location
    compression := normalizeCompression conf.compression
    decrompressor := mkDecompressor conf.compression
    storageHost := conf.storage.host
    storageDb := conf.storage.db
    storageCollection := conf.storage.collection
    storageStrict := false
    modelName := "Doc" }

/-- A concrete agent sets `this.parser` to a parser stream instance. -/
def setParser (a : BudaAgent) (pid : Nat) : BudaAgent :=
  { a with parser := some pid }

/-- `BudaAgent.prototype.transform`: the default transform hook returns the
record unchanged. -/
def transform {α : Type} (record : α) : α :=
  record

/-- First occurrence of `pat` removed from the character list
(JS `String.replace(pat, '')` with a string pattern removes only the first
occurrence and leaves the string unchanged when the pattern is absent). -/
def removeFirst (pat : List Char) : List Char → List Char
  | [] => []
  | c :: rest =>
      if pat.isPrefixOf (c :: rest) then (c :: rest).drop pat.length
      else c :: removeFirst pat rest

/-- Whether `pat` occurs (as a contiguous run) somewhere in the list. -/
def hasOccur (pat : List Char) : List Char → Bool
  | [] => pat.isPrefixOf []
  | c :: rest => pat.isPrefixOf (c :: rest) || hasOccur pat rest

/-- `s.replace('tcp://', '')` of the source. -/
def jsReplaceTcp (s : String) : String :=
  ⟨removeFirst "tcp://".data s.data⟩

/-- Remainder after the first occurrence of `mark`, when it occurs. -/
def restAfter (mark : List Char) : List Char → Option (List Char)
  | [] => if mark.isPrefixOf ([] : List Char) then some [] else none
  | c :: rest =>
      if mark.isPrefixOf (c :: rest) then some ((c :: rest).drop mark.length)
      else restAfter mark rest

/-- Modelled from the spec: strip a `scheme://` prefix, for any scheme, if
present (everything up to and including the first `://` is removed). -/
def specStripScheme (s : String) : String :=
  match restAfter "://".data s.data with
  | some r => ⟨r⟩
  | none => s

/-- `BudaAgent.prototype.connectStorage`: the env value `STORAGE_PORT`, with
the first `tcp://` removed, is the default; a truthy `config.storage.host`
overrides it; a falsy result raises `No storage available`; otherwise the
selected DB is appended and mongoose connects to `mongodb://` + address. -/
def connectStorage (envStoragePort : JStr) (a : BudaAgent) : Except String String :=
  let s0 : JStr :=
    if truthy envStoragePort then some (jsReplaceTcp (envStoragePort.getD "")) else none
  let s1 : JStr := if truthy a.storageHost then a.storageHost else s0
  if truthy s1 then Except.ok ("mongodb://" ++ s1.getD "" ++ "/" ++ a.storageDb)
  else Except.error "No storage available"

/-- Observable side effects of `start` and `exit`. -/
inductive Effect
  | connectDb (uri : String)
  | listen (endpoint : String)
  | closeListener
  | disconnectDb
  | cleanupHook
  | procExit
deriving Repr, DecidableEq

/-- `BudaAgent.prototype.start`: raise if no parser is set; otherwise connect
storage (which may raise before any effect); otherwise connect mongoose,
create the server and listen on the endpoint.  The pair is (effects
performed, outcome). -/
def startRun (envStoragePort : JStr) (a : BudaAgent) :
    List Effect × Except String BudaAgent :=
  if a.parser.isNone then ([], Except.error "No parser set for the agent")
  else
    match connectStorage envStoragePort a with
    | Except.error e => ([], Except.error e)
    | Except.ok uri =>
        ([Effect.connectDb uri, Effect.listen a.endpoint],
         Except.ok { a with incoming := some 0 })

/-- A stage of a per-connection stream chain.  `decomp` and `parserStage`
carry the identity of the stream instance being piped into, so that sharing
of one instance between connections is expressible; `transformStage` and
`storageStage` name the record consumer stages the spec describes. -/
inductive Stage
  | sock (connId : Nat)
  | decomp (instanceId : Nat)
  | parserStage (instanceId : Nat)
  | transformStage
  | storageStage
deriving Repr, DecidableEq

/-- The stream chain wired by the `net.createServer` callback of `start` for
one accepted connection: `socket.pipe(this.decrompressor).pipe(this.parser)`
when compression is enabled, `socket.pipe(this.parser)` otherwise.  Both
piped-into stages are the agent's own single field instances. -/
def connectionPipeline (a : BudaAgent) (connId : Nat) : List Stage :=
  if a.compression ≠ "none" then
    [Stage.sock connId, Stage.decomp (a.decrompressor.getD 0),
     Stage.parserStage (a.parser.getD 0)]
  else
    [Stage.sock connId, Stage.parserStage (a.parser.getD 0)]

/-- The `pipe` edges of a stream chain: each adjacent pair of stages.  A
`pipe` edge is the only place flow-control (backpressure) propagates. -/
def pipeEdges : List Stage → List (Stage × Stage)
  | a :: b :: rest => (a, b) :: pipeEdges (b :: rest)
  | _ => []

/-- `BudaAgent.prototype.exit`: close the listener when one exists, then
`mongoose.disconnect()`, then `this.cleanup()`, then `process.exit()`.  The
three external steps may raise (`closeThrows`, `disconnectThrows`,
`cleanupThrows`); the source has no try/catch, so a raise aborts the rest.
Returns (steps invoked, whether an exception escaped). -/
def exitRun (incoming : Option Nat)
    (closeThrows disconnectThrows cleanupThrows : Bool) : List Effect × Bool :=
  let fx0 : List Effect := if incoming.isSome then [Effect.closeListener] else []
  if incoming.isSome && closeThrows then (fx0, true)
  else if disconnectThrows then (fx0 ++ [Effect.disconnectDb], true)
  else if cleanupThrows then (fx0 ++ [Effect.disconnectDb, Effect.cleanupHook], true)
  else (fx0 ++ [Effect.disconnectDb, Effect.cleanupHook, Effect.procExit], false)

/-- Argument to `log`: either a string or a (flat) structured object. -/
inductive LogMsg
  | text (s : String)
  | jobject (fields : List (String × String))
deriving Repr, DecidableEq

/-- `JSON.stringify` of a flat object with string values (single line). -/
def stringifyFlat (fs : List (String × String)) : String :=
  "\x7b" ++
    String.intercalate ","
      (fs.map (fun p => "\"" ++ p.1 ++ "\":\"" ++ p.2 ++ "\"")) ++
  "\x7d"

/-- `BudaAgent.prototype.log`: an object argument is stringified, a string
argument is left as is; the result is written to stdout verbatim (the source
appends nothing). -/
def logOutput : LogMsg → String
  | LogMsg.jobject fs => stringifyFlat fs
  | LogMsg.text s => s

/-! ### Concrete example configurations -/

/-- The spec's §8 example configuration, with the storage host explicitly
set to `localhost:27017`. -/
def confSpecExample : Conf :=
  { hotspot := { location := "/tmp/agent.sock" }
    compression := some "none"
    storage :=
      { host := some "localhost:27017", db := "x"
        collection := some "docs", collectionName := some "docs" } }

/-- A gzip-compressed variant of the example configuration. -/
def confGzip : Conf :=
  { hotspot := { location := "/tmp/agent.sock" }
    compression := some "gzip"
    storage :=
      { host := some "localhost:27017", db := "x"
        collection := some "docs", collectionName := some "docs" } }

/-- Example configuration with no storage host set. -/
def confNoHost : Conf :=
  { hotspot := { location := "/tmp/agent.sock" }
    compression := some "none"
    storage :=
      { host := none, db := "x"
        collection := some "docs", collectionName := some "docs" } }

/-- Example configuration carrying `collectionName` but no `collection` key. -/
def confCollName : Conf :=
  { hotspot := { location := "/tmp/agent.sock" }
    compression := some "none"
    storage :=
      { host := some "localhost:27017", db := "x"
        collection := none, collectionName := some "docs" } }

/-- A gzip agent whose parser has been set (instance id 7). -/
def agentG : BudaAgent := setParser (mkAgent confGzip) 7

/-- An agent built from `confNoHost`. -/
def agentNoHost : BudaAgent := mkAgent confNoHost

/-- An agent built from the spec's example configuration. -/
def agentSpecExample : BudaAgent := mkAgent confSpecExample

/-! ### Helper lemmas -/

/-- A list is a `isPrefixOf` of itself followed by anything. -/
theorem isPrefixOf_append_self (p l : List Char) : p.isPrefixOf (p ++ l) = true := by
  induction p with
  | nil => simp [List.isPrefixOf]
  | cons c p ih => simp [List.isPrefixOf, ih]

/-- Removing the first occurrence of a nonempty pattern from a string that
starts with it leaves exactly the rest. -/
theorem removeFirst_append (c : Char) (p l : List Char) :
    removeFirst (c :: p) ((c :: p) ++ l) = l := by
  have h : (c :: p).isPrefixOf ((c :: p) ++ l) = true := isPrefixOf_append_self _ _
  show removeFirst (c :: p) (c :: (p ++ l)) = l
  rw [removeFirst]
  simp only [List.cons_append] at h
  rw [if_pos h]
  simp [List.drop_left]

/-- When the pattern does not occur, `removeFirst` is the identity. -/
theorem removeFirst_not_occur (p : List Char) :
    ∀ l : List Char, hasOccur p l = false → removeFirst p l = l := by
  intro l
  induction l with
  | nil => intro _; rfl
  | cons c rest ih =>
      intro h
      rw [hasOccur, Bool.or_eq_false_iff] at h
      rw [removeFirst, if_neg (by simp [h.1]), ih h.2]

/-- String append acts as list append on the character data. -/
theorem string_data_append (s t : String) : (s ++ t).data = s.data ++ t.data := rfl

/-- A string rebuilt from its data is itself. -/
theorem string_mk_data (s : String) : (⟨s.data⟩ : String) = s := rfl

/-- `jsReplaceTcp` strips a leading `tcp://`. -/
theorem jsReplaceTcp_strip (s : String) : jsReplaceTcp ("tcp://" ++ s) = s := by
  unfold jsReplaceTcp
  rw [string_data_append]
  show (⟨removeFirst ('t' :: "cp://".data) (('t' :: "cp://".data) ++ s.data)⟩ : String) = s
  rw [removeFirst_append, string_mk_data]

/-- `jsReplaceTcp` leaves a string without `tcp://` unchanged. -/
theorem jsReplaceTcp_id (s : String) (h : hasOccur "tcp://".data s.data = false) :
    jsReplaceTcp s = s := by
  unfold jsReplaceTcp
  rw [removeFirst_not_occur _ _ h, string_mk_data]

/-- A string with a nonempty prefix is truthy. -/
theorem truthy_cons (c : Char) (p l : List Char) :
    truthy (some (⟨c :: p⟩ ++ ⟨l⟩ : String)) = true := by
  rfl

/-! ### Claims -/

/-- Claim C1, counterexample: on the gzip example agent the per-connection
pipeline built by `start` ends at the parser; no stage of the pipeline
invokes the transform hook or writes to storage, contrary to the claim that
the pipeline ends in a record consumer doing both. -/
theorem C1_cex :
    (connectionPipeline agentG 0).getLast? = some (Stage.parserStage 7)
    ∧ Stage.transformStage ∉ connectionPipeline agentG 0
    ∧ Stage.storageStage ∉ connectionPipeline agentG 0 := by
  decide

/-- Claim C1, amended: for every agent and connection, the pipeline built by
`start` ends at the Parser stage and contains no transform or storage stage;
the default transform hook is the identity and is not invoked by the core
pipeline — applying it and persisting is left to concrete agents. -/
theorem C1_thm : ∀ (a : BudaAgent) (c : Nat) (r : Nat),
    (connectionPipeline a c).getLast? = some (Stage.parserStage (a.parser.getD 0))
    ∧ Stage.transformStage ∉ connectionPipeline a c
    ∧ Stage.storageStage ∉ connectionPipeline a c
    ∧ transform r = r := by
  intro a c r
  by_cases h : a.compression = "none" <;>
    simp [connectionPipeline, transform, h, List.getLast?]

/-- Claim C2, counterexample: on the gzip example agent the pipe chain is
socket → decompressor → parser; the storage consumer is not a stage of the
chain and no pipe edge touches it, so the claimed end-to-end flow-control
path from storage back to the socket does not exist. -/
theorem C2_cex :
    connectionPipeline agentG 0 = [Stage.sock 0, Stage.decomp 0, Stage.parserStage 7]
    ∧ Stage.storageStage ∉ connectionPipeline agentG 0
    ∧ (∀ e ∈ pipeEdges (connectionPipeline agentG 0),
        e.1 ≠ Stage.storageStage ∧ e.2 ≠ Stage.storageStage) := by
  decide

/-- Claim C2, amended: for every agent and connection, the pipe edges of the
constructed chain are exactly socket→decompressor and decompressor→parser
(compression enabled) or socket→parser (compression disabled); pipe edges are
the only backpressure links, and the storage connector is not a stage of the
chain, so storage slowness exerts no flow control on the socket. -/
theorem C2_thm : ∀ (a : BudaAgent) (c : Nat),
    pipeEdges (connectionPipeline a c) =
      (if a.compression ≠ "none" then
        [(Stage.sock c, Stage.decomp (a.decrompressor.getD 0)),
         (Stage.decomp (a.decrompressor.getD 0), Stage.parserStage (a.parser.getD 0))]
      else [(Stage.sock c, Stage.parserStage (a.parser.getD 0))])
    ∧ Stage.storageStage ∉ connectionPipeline a c := by
  intro a c
  by_cases h : a.compression = "none" <;> simp [connectionPipeline, pipeEdges, h]

/-- Claim C3, counterexample: two distinct connections (ids 0 and 1) of the
gzip example agent are piped into the same decompressor instance (id 0) and
the same parser instance (id 7), contradicting per-connection ownership of
the decompression and parser stages. -/
theorem C3_cex :
    (0 : Nat) ≠ 1
    ∧ connectionPipeline agentG 0 = [Stage.sock 0, Stage.decomp 0, Stage.parserStage 7]
    ∧ connectionPipeline agentG 1 = [Stage.sock 1, Stage.decomp 0, Stage.parserStage 7] := by
  decide

/-- Claim C3, amended: for every agent, each connection's pipeline starts at
its own socket, but everything after the socket — the decompressor and
parser instances — is identical for every pair of connections: all
connections share the agent's single field instances. -/
theorem C3_thm : ∀ (a : BudaAgent) (c1 c2 : Nat),
    (connectionPipeline a c1).head? = some (Stage.sock c1)
    ∧ (connectionPipeline a c1).tail = (connectionPipeline a c2).tail := by
  intro a c1 c2
  by_cases h : a.compression = "none" <;> simp [connectionPipeline, h]

/-- Claim C4, counterexample: when `mongoose.disconnect()` raises, `exit`
stops after the disconnect step — the cleanup hook and `process.exit()` do
not run, contradicting the best-effort requirement that every later step
still runs. -/
theorem C4_cex :
    exitRun (some 0) false true false = ([Effect.closeListener, Effect.disconnectDb], true)
    ∧ Effect.cleanupHook ∉ (exitRun (some 0) false true false).1
    ∧ Effect.procExit ∉ (exitRun (some 0) false true false).1 := by
  decide

/-- Claim C4, amended: `exit` performs, in order, close-listener (skipped
when no listener exists), storage disconnect, the cleanup hook, and process
termination — but the steps are not individually guarded: when no step
raises the full ordered sequence runs, and a raising step (e.g. the cleanup
hook) aborts the remainder, so process termination does not run. -/
theorem C4_thm : ∀ (inc : Option Nat),
    exitRun inc false false false =
      ((if inc.isSome then [Effect.closeListener] else []) ++
        [Effect.disconnectDb, Effect.cleanupHook, Effect.procExit], false)
    ∧ Effect.procExit ∉ (exitRun inc false false true).1 := by
  intro inc
  cases inc <;> simp [exitRun]

/-- Claim C5: for every environment value and every agent whose configured
storage host is set (truthy), `connectStorage` uses the configured host —
the result is independent of the environment value, which is ignored. -/
theorem C5_thm : ∀ (env : JStr) (a : BudaAgent), truthy a.storageHost = true →
    connectStorage env a =
      Except.ok ("mongodb://" ++ a.storageHost.getD "" ++ "/" ++ a.storageDb) := by
  intro env a h
  simp [connectStorage, h]

/-- Claim C5, witness: the spec's example agent (host `localhost:27017`,
db `x`) with a set environment value resolves to the configured host. -/
theorem C5_thm_witness :
    truthy agentSpecExample.storageHost = true
    ∧ connectStorage (some "tcp://10.1.2.3:27017") agentSpecExample =
        Except.ok ("mongodb://" ++ agentSpecExample.storageHost.getD "" ++ "/"
          ++ agentSpecExample.storageDb) :=
  ⟨by decide, C5_thm (some "tcp://10.1.2.3:27017") agentSpecExample (by decide)⟩

/-- Claim C6, counterexample: an environment address with scheme `udp://`
is used verbatim — the scheme is not stripped (only the literal `tcp://`
would be), although the spec's any-scheme stripping would yield
`localhost:27017`. -/
theorem C6_cex :
    connectStorage (some "udp://localhost:27017") agentNoHost =
      Except.ok "mongodb://udp://localhost:27017/x"
    ∧ specStripScheme "udp://localhost:27017" = "localhost:27017" := by
  exact ⟨rfl, rfl⟩

/-- Claim C6, amended: only the literal `tcp://` prefix is removed from the
environment-provided address (its first occurrence); an environment address
containing no `tcp://` at all is used unchanged, whatever its scheme. -/
theorem C6_thm :
    (∀ (s : String) (a : BudaAgent), truthy a.storageHost = false → s ≠ "" →
        connectStorage (some ("tcp://" ++ s)) a =
          Except.ok ("mongodb://" ++ s ++ "/" ++ a.storageDb))
    ∧ (∀ (s : String) (a : BudaAgent), truthy a.storageHost = false →
        hasOccur "tcp://".data s.data = false → s ≠ "" →
        connectStorage (some s) a =
          Except.ok ("mongodb://" ++ s ++ "/" ++ a.storageDb)) := by
  constructor
  · intro s a hhost hs
    have hne : ("tcp://" ++ s) ≠ "" := by
      intro hcon
      have hd := congrArg String.data hcon
      rw [string_data_append] at hd
      have hd2 : "tcp://".data ++ s.data = ([] : List Char) := hd
      rcases List.append_eq_nil.mp hd2 with ⟨h4, _⟩
      exact absurd h4 (by decide)
    have h1 : truthy (some ("tcp://" ++ s)) = true := by simp [truthy, hne]
    have h2 : jsReplaceTcp ("tcp://" ++ s) = s := jsReplaceTcp_strip s
    have h3 : truthy (some s) = true := by simp [truthy, hs]
    simp [connectStorage, hhost, h1, h2, h3]
  · intro s a hhost hocc hs
    have h3 : truthy (some s) = true := by simp [truthy, hs]
    simp [connectStorage, hhost, h3, jsReplaceTcp_id s hocc]

/-- Claim C6, amended witness: the no-host example agent with the
environment set to `tcp://localhost:27017` connects to the stripped
address. -/
theorem C6_thm_witness :
    truthy agentNoHost.storageHost = false
    ∧ ("localhost:27017" : String) ≠ ""
    ∧ connectStorage (some ("tcp://" ++ "localhost:27017")) agentNoHost =
        Except.ok ("mongodb://" ++ "localhost:27017" ++ "/" ++ agentNoHost.storageDb) :=
  ⟨by decide, by decide,
    C6_thm.1 "localhost:27017" agentNoHost (by decide) (by decide)⟩

/-- Claim C7: for every environment and every agent with no parser set,
`start` fails with the no-parser error and performs no effect — in
particular no storage connection is made and no listening socket is
opened. -/
theorem C7_thm : ∀ (env : JStr) (a : BudaAgent), a.parser = none →
    startRun env a = ([], Except.error "No parser set for the agent") := by
  intro env a h
  simp [startRun, h]

/-- Claim C7, witness: a freshly constructed agent (whose parser is `null`)
fails `start` with the no-parser error and an empty effect list. -/
theorem C7_thm_witness :
    (mkAgent confSpecExample).parser = none
    ∧ startRun none (mkAgent confSpecExample) =
        ([], Except.error "No parser set for the agent") :=
  ⟨rfl, C7_thm none (mkAgent confSpecExample) rfl⟩

/-- Claim C8, counterexample: a configuration that sets
`storage.collectionName` (to `docs`) but carries no `storage.collection` key
yields an agent whose schema collection setting is `null` — the constructor
reads `config.storage.collection`, not `collectionName`. -/
theorem C8_cex :
    confCollName.storage.collectionName = some "docs"
    ∧ (mkAgent confCollName).storageCollection = none
    ∧ (mkAgent confCollName).storageCollection ≠ confCollName.storage.collectionName :=
  ⟨rfl, rfl, by decide⟩

/-- Claim C8, amended: for every configuration, the storage schema is scoped
to the collection named by `config.storage.collection` (not
`collectionName`), with strict mode disabled (schema-less documents) and the
model registered under the name `Doc`. -/
theorem C8_thm : ∀ (conf : Conf),
    (mkAgent conf).storageCollection = conf.storage.collection
    ∧ (mkAgent conf).storageStrict = false
    ∧ (mkAgent conf).modelName = "Doc" :=
  fun _ => ⟨rfl, rfl, rfl⟩

/-- Claim C9 (code bug): `log` writes a text argument verbatim — the output
for the source's own call `log('Agent ready')` is the bare string
`Agent ready`, with no JSON envelope and no trailing newline, and even a
structured argument is written with no trailing newline; this contradicts
both the claim and the function's own comment (minimal wrap object for
strings, time added to all messages). -/
theorem C9_bug :
    logOutput (LogMsg.text "Agent ready") = "Agent ready"
    ∧ (logOutput (LogMsg.text "Agent ready")).data.contains '\n' = false
    ∧ (logOutput (LogMsg.jobject [("event", "ready")])).data.contains '\n' = false := by
  exact ⟨rfl, by decide, by decide⟩

/-- Claim C10: a freshly constructed agent has no listener handle
(`incoming = null`), and invoking the shutdown handler on it skips the
listener-close step via the null check — even when closing would raise —
and still performs storage disconnect, the cleanup hook and process
termination, without raising. -/
theorem C10_thm : ∀ (conf : Conf) (ct : Bool),
    (mkAgent conf).incoming = none
    ∧ exitRun (mkAgent conf).incoming ct false false =
        ([Effect.disconnectDb, Effect.cleanupHook, Effect.procExit], false) := by
  intro conf ct
  refine ⟨rfl, ?_⟩
  show exitRun none ct false false = _
  simp [exitRun]

end Buda
